import Mathlib

/-!
Verification of the session-store and conversation-relay logic of
`src/server.js`, a small HTTP relay that forwards user prompts to an
upstream generative-AI API while keeping per-session history in memory.

The embedding is shallow: JavaScript objects become Lean structures, the
process-wide `sessions` object becomes a function from identifiers to
optional sessions, timestamps are integers (JS numbers in the integral
range behave like integers here), and the asynchronous upstream call is
modelled by an oracle mapping the request payload to the observable
outcome of the axios call (a 2xx response body, or a thrown error).
-/

namespace Server

/-- One content fragment of a turn: either a text fragment
(`{ text: ... }`) or an inline-binary fragment
(`{ inlineData: { mimeType, data } }`), as built in `server.js`
lines 83-91 and consumed in line 97. -/
inductive Part where
  | text (s : String)
  | inlineData (mimeType : String) (data : String)
deriving DecidableEq, Repr

/-- The JavaScript property access `part.text`: `some s` when the part is
a text fragment, `none` (JS `undefined`) otherwise. -/
def Part.textField : Part → Option String
  | .text s => some s
  | .inlineData _ _ => none

/-- Role tag of a turn (`role: 'user'` / `role: 'assistant'`). -/
inductive Role where
  | user
  | assistant
deriving DecidableEq, Repr

/-- One conversation turn: `{ role, parts }`. -/
structure Turn where
  role : Role
  parts : List Part
deriving DecidableEq, Repr

/-- One entry of the `sessions` map: `{ history, lastActive }`
(`server.js` lines 73-76). -/
structure Session where
  history : List Turn
  lastActive : Int
deriving DecidableEq, Repr

/-- The process-wide `sessions` object (`server.js` line 29), as a map
from session identifier to optional session. -/
abbrev Store := String → Option Session

/-- The empty `sessions` map. -/
def emptyStore : Store := fun _ => none

/-- `sessions[id] = s` on the map. -/
def updateStore (store : Store) (id : String) (s : Session) : Store :=
  fun k => if k = id then some s else store k

/-- `SESSION_EXPIRY = 30 * 60 * 1000` (`server.js` line 30). -/
def SESSION_EXPIRY : Int := 30 * 60 * 1000

/-- The expiry sweep (`server.js` lines 37-44): for each stored session,
`delete sessions[sessionId]` exactly when
`sessions[sessionId].lastActive < now - ttl`.  The `forEach` over
`Object.keys` acts on each key independently, so the sweep is the
pointwise map below. -/
def sweepExpired (now ttl : Int) (store : Store) : Store :=
  fun id =>
    match store id with
    | none => none
    | some s => if s.lastActive < now - ttl then none else some s

/-- A content block of an upstream candidate (`candidates[i].content`):
`{ parts: [...] }`. -/
structure Content where
  parts : List Part
deriving DecidableEq, Repr

/-- One element of the upstream `candidates` array; its `content`
property may be absent (JS `undefined`). -/
structure Candidate where
  content : Option Content
deriving DecidableEq, Repr

/-- Observable outcome of the `axios.post` call inside `callGemini`
(`server.js` lines 50-53): either a 2xx response whose body may or may
not carry a `candidates` array, or a thrown error (network failure,
timeout, non-2xx status). -/
inductive AxiosResult where
  | ok (candidates : Option (List Candidate))
  | err
deriving DecidableEq, Repr

/-- The fixed fallback content block
`{ parts: [{ text: "No response from AI." }] }` (`server.js` line 54). -/
def fallbackContent : Content :=
  ⟨[Part.text "No response from AI."]⟩

/-- The optional chain `response.data?.candidates?.[0]?.content`
(`server.js` line 54). -/
def extractContent (cands : Option (List Candidate)) : Option Content :=
  (cands.bind List.head?).bind Candidate.content

/-- `callGemini` (`server.js` lines 47-59) applied to the observable
axios outcome: on a thrown axios error it rethrows
(`throw new Error('Failed to get AI response')`); on a 2xx response it
returns `response.data?.candidates?.[0]?.content || fallback`. -/
def callGemini (resp : AxiosResult) : Except Unit Content :=
  match resp with
  | .err => .error ()
  | .ok cands => .ok ((extractContent cands).getD fallbackContent)

/-- JavaScript truthiness of the `prompt` field: `undefined` and the
empty string are falsy, every other string is truthy. -/
def jsTruthy : Option String → Bool
  | none => false
  | some s => !s.isEmpty

/-- The uploaded image as seen by the handler (`req.file`): its mime
type and the base64 rendering of its buffer. -/
structure Image where
  mimetype : String
  dataB64 : String
deriving DecidableEq, Repr

/-- Construction of the new user turn (`server.js` lines 81-91): a text
part when `prompt` is truthy, then an inline-data part when an image was
uploaded. -/
def mkUserTurn (prompt : Option String) (image : Option Image) : Turn :=
  { role := Role.user
    parts :=
      (if jsTruthy prompt then [Part.text (prompt.getD "")] else [])
        ++ (match image with
            | some img => [Part.inlineData img.mimetype img.dataB64]
            | none => []) }

/-- Lines 72-78 of `server.js`: create the session with empty history if
absent, then unconditionally refresh `lastActive` to now. Returns the
updated map together with the session the handler works on. -/
def getOrCreate (now : Int) (store : Store) (id : String) : Store × Session :=
  match store id with
  | none =>
      let s : Session := { history := [], lastActive := now }
      (updateStore store id s, s)
  | some s =>
      let s' : Session := { s with lastActive := now }
      (updateStore store id s', s')

/-- The error kinds surfaced by the `/api/ai` handler: the 400 validation
error of line 68, the error rethrown by `callGemini`, and any other
exception reaching the catch block (e.g. reading `.text` of a missing
first part in line 97). -/
inductive RelayError where
  | invalidInput
  | upstream
  | internal
deriving DecidableEq, Repr

/-- Everything observable about one run of the `/api/ai` handler: the
`sessions` map afterwards, the outcome sent to the client (`some t` /
`none` for the present/absent `response` field of the 200 body, or the
error kind), and the payload passed to `callGemini` (`none` when the
upstream call never happened). -/
structure RelayOutcome where
  store : Store
  result : Except RelayError (Option String)
  sent : Option (List Turn)

/-- HTTP status code of each handler outcome: 200 on success, 400 for
the validation error, 500 for everything reaching the catch block. -/
def statusOf : Except RelayError (Option String) → Nat
  | .ok _ => 200
  | .error .invalidInput => 400
  | .error _ => 500

/-- The `/api/ai` handler (`server.js` lines 62-105) for one request.
`gemini` maps the payload `[...history]` to the observable outcome of
the axios call.  Validation (line 67) runs before the store is touched;
the user turn is pushed into the live session before the upstream call,
so it stays in the history when the call fails; the assistant turn is
pushed (line 95) before line 97 reads `aiResponse.parts[0].text`, whose
read of `.text` on a missing first part throws into the catch block. -/
def handleTurn (now : Int) (gemini : List Turn → AxiosResult)
    (store : Store) (prompt : Option String) (image : Option Image)
    (sessionId : String) : RelayOutcome :=
  if !jsTruthy prompt && image.isNone then
    { store := store, result := .error .invalidInput, sent := none }
  else
    let pair := getOrCreate now store sessionId
    let store1 := pair.1
    let sess := pair.2
    let history1 := sess.history ++ [mkUserTurn prompt image]
    match callGemini (gemini history1) with
    | .error _ =>
        { store := updateStore store1 sessionId
            { history := history1, lastActive := now }
          result := .error .upstream
          sent := some history1 }
    | .ok content =>
        let history2 := history1 ++ [{ role := Role.assistant, parts := content.parts }]
        let store2 := updateStore store1 sessionId
          { history := history2, lastActive := now }
        match content.parts.head? with
        | none =>
            { store := store2, result := .error .internal, sent := some history1 }
        | some p0 =>
            { store := store2, result := .ok p0.textField, sent := some history1 }

/-- The history currently stored for `id` (empty when the session is
absent). -/
def historyOf (store : Store) (id : String) : List Turn :=
  match store id with
  | some s => s.history
  | none => []

/-- A sequence of `/api/ai` requests for the same `sessionId`, run in
order against the store; returns the final store and the per-call
outcomes. -/
def runCalls (now : Int) (gemini : List Turn → AxiosResult) (sessionId : String)
    (store : Store) :
    List (Option String × Option Image) → Store × List (Except RelayError (Option String))
  | [] => (store, [])
  | (p, img) :: rest =>
      let o := handleTurn now gemini store p img sessionId
      ((runCalls now gemini sessionId o.store rest).1,
        o.result :: (runCalls now gemini sessionId o.store rest).2)

/-- Whether one handler outcome was a success (a 200 response). -/
def resultOk : Except RelayError (Option String) → Bool
  | .ok _ => true
  | .error _ => false

/-- Modelled from the spec: "returns the first text fragment of that
block to the caller" (§4.2) — the first fragment of the block that is a
text fragment, used only to compare the spec's reading against what the
code returns. -/
def specFirstTextFragment (parts : List Part) : Option String :=
  (parts.filterMap Part.textField).head?

/-- Shape of the history produced by a sequence of successful relay
calls: for each call, in call order, the user turn built from that
call's inputs followed by one assistant turn. -/
inductive ConversationShape :
    List (Option String × Option Image) → List Turn → Prop where
  | nil : ConversationShape [] []
  | cons (p : Option String) (img : Option Image) (aParts : List Part)
      (rest : List (Option String × Option Image)) (h : List Turn) :
      ConversationShape rest h →
      ConversationShape ((p, img) :: rest)
        (mkUserTurn p img :: { role := Role.assistant, parts := aParts } :: h)

/-! ### Helper lemmas -/

theorem updateStore_self (store : Store) (id : String) (s : Session) :
    updateStore store id s id = some s := by
  simp [updateStore]

theorem updateStore_other (store : Store) (id : String) (s : Session)
    (k : String) (hk : k ≠ id) : updateStore store id s k = store k := by
  simp [updateStore, hk]

theorem updateStore_updateStore (store : Store) (id : String) (s t : Session) :
    updateStore (updateStore store id s) id t = updateStore store id t := by
  funext k
  by_cases hk : k = id <;> simp [updateStore, hk]

theorem getOrCreate_fst (now : Int) (store : Store) (id : String) :
    (getOrCreate now store id).1 =
      updateStore store id ⟨historyOf store id, now⟩ := by
  cases h : store id <;> simp [getOrCreate, historyOf, h]

theorem getOrCreate_snd (now : Int) (store : Store) (id : String) :
    (getOrCreate now store id).2 = ⟨historyOf store id, now⟩ := by
  cases h : store id <;> simp [getOrCreate, historyOf, h]

theorem valid_cond (p : Option String) (img : Option Image)
    (hv : (jsTruthy p || img.isSome) = true) :
    (!jsTruthy p && img.isNone) = false := by
  cases hp : jsTruthy p <;> cases img <;> simp_all

/-! ### Claims -/

/-- Claim C1 (amended): the expiry sweep removes exactly those sessions
whose idle time `now - lastActive` is STRICTLY greater than the TTL, and
every other session is left entirely untouched (the very same session
value, so history contents and `lastActive` are unchanged); in
particular a session whose idle time equals the TTL exactly is kept, not
removed. -/
theorem C1_sweep_exact (now ttl : Int) (store : Store) (id : String) :
    (store id = none → sweepExpired now ttl store id = none) ∧
    (∀ s, store id = some s →
      (sweepExpired now ttl store id = none ↔ ttl < now - s.lastActive) ∧
      (now - s.lastActive ≤ ttl → sweepExpired now ttl store id = some s)) := by
  refine ⟨fun h => by simp [sweepExpired, h], fun s hs => ?_⟩
  have hcode : sweepExpired now ttl store id =
      (if s.lastActive < now - ttl then none else some s) := by
    simp [sweepExpired, hs]
  by_cases h : s.lastActive < now - ttl
  · rw [hcode, if_pos h]
    exact ⟨⟨fun _ => by omega, fun _ => rfl⟩, fun hle => absurd hle (by omega)⟩
  · rw [hcode, if_neg h]
    exact ⟨⟨fun hc => Option.noConfusion hc, fun hlt => absurd hlt (by omega)⟩,
      fun _ => rfl⟩

/-- Claim C1 witness: a stored session idle for strictly more than the
TTL is removed, and one idle for less is kept untouched. -/
theorem C1_sweep_exact_witness :
    sweepExpired 1800001 SESSION_EXPIRY
      (updateStore emptyStore "a" ⟨[], 0⟩) "a" = none ∧
    sweepExpired 1799999 SESSION_EXPIRY
      (updateStore emptyStore "b" ⟨[], 0⟩) "b" = some ⟨[], 0⟩ :=
  ⟨((C1_sweep_exact 1800001 SESSION_EXPIRY
      (updateStore emptyStore "a" ⟨[], 0⟩) "a").2 ⟨[], 0⟩ (by decide)).1.mpr
      (by decide),
   ((C1_sweep_exact 1799999 SESSION_EXPIRY
      (updateStore emptyStore "b" ⟨[], 0⟩) "b").2 ⟨[], 0⟩ (by decide)).2
      (by decide)⟩

/-- Claim C1 counterexample: a session whose idle time equals the TTL
exactly (lastActive 0, now = SESSION_EXPIRY) is NOT removed by the
sweep, contradicting "idle time ≥ TTL is removed". -/
theorem C1_sweep_counterexample :
    1800000 - 0 ≥ SESSION_EXPIRY ∧
    sweepExpired 1800000 SESSION_EXPIRY
      (updateStore emptyStore "a" ⟨[], 0⟩) "a" = some ⟨[], 0⟩ := by
  refine ⟨by decide, ?_⟩
  simp [sweepExpired, updateStore, SESSION_EXPIRY]

/-- Claim C2: a relay call supplying neither a prompt text nor an image
fails with InvalidInput (HTTP 400) and leaves the session store exactly
as it was: no session is created or mutated, and no upstream call is
made. -/
theorem C2_no_input_rejected (now : Int) (gemini : List Turn → AxiosResult)
    (store : Store) (sid : String) :
    handleTurn now gemini store none none sid =
      { store := store, result := .error .invalidInput, sent := none } ∧
    statusOf (Except.error RelayError.invalidInput) = 400 :=
  ⟨rfl, rfl⟩

/-- Claim C9: a relay call whose prompt is the empty string and which
carries no image is rejected exactly like a missing prompt: InvalidInput
(HTTP 400), the store untouched, no upstream call. -/
theorem C9_empty_prompt_rejected (now : Int) (gemini : List Turn → AxiosResult)
    (store : Store) (sid : String) :
    handleTurn now gemini store (some "") none sid =
      { store := store, result := .error .invalidInput, sent := none } ∧
    statusOf (Except.error RelayError.invalidInput) = 400 :=
  ⟨rfl, rfl⟩

/-- Claim C5: `getOrCreate` never fails (it is total); for an absent id
it creates and returns a session with empty history and `lastActive =
now`; for a present id it returns the stored session unchanged except
that `lastActive` is refreshed to now; in both cases no other key of the
store is affected. -/
theorem C5_getOrCreate_spec (now : Int) (store : Store) (id : String) :
    (store id = none →
      (getOrCreate now store id).2 = { history := [], lastActive := now } ∧
      (getOrCreate now store id).1 id =
        some { history := [], lastActive := now } ∧
      ∀ k, k ≠ id → (getOrCreate now store id).1 k = store k) ∧
    (∀ s, store id = some s →
      (getOrCreate now store id).2 = { s with lastActive := now } ∧
      (getOrCreate now store id).1 id = some { s with lastActive := now } ∧
      ∀ k, k ≠ id → (getOrCreate now store id).1 k = store k) := by
  constructor
  · intro h
    exact ⟨by simp [getOrCreate, h], by simp [getOrCreate, h, updateStore],
      fun k hk => by simp [getOrCreate, h, updateStore, hk]⟩
  · intro s hs
    exact ⟨by simp [getOrCreate, hs], by simp [getOrCreate, hs, updateStore],
      fun k hk => by simp [getOrCreate, hs, updateStore, hk]⟩

/-- Claim C5 witness: creating a fresh session, and refreshing an
existing one without touching its history. -/
theorem C5_getOrCreate_spec_witness :
    (getOrCreate 7 emptyStore "a").2 = { history := [], lastActive := 7 } ∧
    (getOrCreate 9 (updateStore emptyStore "b"
        ⟨[⟨Role.user, [Part.text "x"]⟩], 3⟩) "b").2 =
      { history := [⟨Role.user, [Part.text "x"]⟩], lastActive := 9 } :=
  ⟨((C5_getOrCreate_spec 7 emptyStore "a").1 rfl).1,
   ((C5_getOrCreate_spec 9 (updateStore emptyStore "b"
        ⟨[⟨Role.user, [Part.text "x"]⟩], 3⟩) "b").2
      ⟨[⟨Role.user, [Part.text "x"]⟩], 3⟩ (by decide)).1⟩

/-- Claim C7: a well-formed (2xx) upstream response containing no
candidates does not fail: `callGemini` substitutes the fixed fallback
content "No response from AI.", and a relay call receiving such a
response completes successfully, returning that fallback text. -/
theorem C7_no_candidates_fallback (cands : Option (List Candidate))
    (h : extractContent cands = none) (now : Int) (store : Store)
    (p : Option String) (img : Option Image) (sid : String)
    (hv : (jsTruthy p || img.isSome) = true) :
    callGemini (.ok cands) = .ok fallbackContent ∧
    (handleTurn now (fun _ => .ok cands) store p img sid).result =
      .ok (some "No response from AI.") := by
  have hcond := valid_cond p img hv
  refine ⟨by simp [callGemini, h], ?_⟩
  simp [handleTurn, hcond, callGemini, h, fallbackContent, Part.textField]

/-- On valid input, when the axios call throws, the handler reports an
upstream error and the store keeps the freshly-pushed user turn. -/
theorem handleTurn_err (now : Int) (gemini : List Turn → AxiosResult)
    (store : Store) (p : Option String) (img : Option Image) (sid : String)
    (hcond : (!jsTruthy p && img.isNone) = false)
    (hfail : gemini (historyOf store sid ++ [mkUserTurn p img]) = .err) :
    handleTurn now gemini store p img sid =
      { store := updateStore store sid
          ⟨historyOf store sid ++ [mkUserTurn p img], now⟩
        result := .error .upstream
        sent := some (historyOf store sid ++ [mkUserTurn p img]) } := by
  simp [handleTurn, hcond, getOrCreate_fst, getOrCreate_snd, hfail, callGemini,
    updateStore_updateStore]

/-- On valid input, when `callGemini` returns a content block, the
handler appends the user turn and then the assistant turn, and answers
from the first part of that block. -/
theorem handleTurn_ok_resp (now : Int) (gemini : List Turn → AxiosResult)
    (store : Store) (p : Option String) (img : Option Image) (sid : String)
    (content : Content)
    (hcond : (!jsTruthy p && img.isNone) = false)
    (hresp : callGemini (gemini (historyOf store sid ++ [mkUserTurn p img])) =
      .ok content) :
    handleTurn now gemini store p img sid =
      { store := updateStore store sid
          ⟨historyOf store sid ++ [mkUserTurn p img]
             ++ [⟨Role.assistant, content.parts⟩], now⟩
        result :=
          match content.parts.head? with
          | none => .error .internal
          | some p0 => .ok p0.textField
        sent := some (historyOf store sid ++ [mkUserTurn p img]) } := by
  simp only [handleTurn, hcond, Bool.false_eq_true, if_false,
    getOrCreate_fst, getOrCreate_snd, hresp, updateStore_updateStore]
  cases content.parts.head? <;> rfl

/-- On valid input the payload handed to the upstream call is always the
stored history followed by the new user turn. -/
theorem handleTurn_sent (now : Int) (gemini : List Turn → AxiosResult)
    (store : Store) (p : Option String) (img : Option Image) (sid : String)
    (hcond : (!jsTruthy p && img.isNone) = false) :
    (handleTurn now gemini store p img sid).sent =
      some (historyOf store sid ++ [mkUserTurn p img]) := by
  cases hge : gemini (historyOf store sid ++ [mkUserTurn p img]) with
  | err => rw [handleTurn_err now gemini store p img sid hcond hge]
  | ok cands =>
      have hresp : callGemini (gemini (historyOf store sid ++ [mkUserTurn p img])) =
          .ok ((extractContent cands).getD fallbackContent) := by
        rw [hge]; rfl
      rw [handleTurn_ok_resp now gemini store p img sid _ hcond hresp]

/-- A successful handler result means: validation passed, `callGemini`
returned some content block, and the stored history grew by the user
turn followed by the assistant turn built from that block. -/
theorem handleTurn_result_ok (now : Int) (gemini : List Turn → AxiosResult)
    (store : Store) (p : Option String) (img : Option Image) (sid : String)
    (t : Option String)
    (h : (handleTurn now gemini store p img sid).result = .ok t) :
    ∃ content : Content,
      callGemini (gemini (historyOf store sid ++ [mkUserTurn p img])) =
        .ok content ∧
      (!jsTruthy p && img.isNone) = false ∧
      historyOf (handleTurn now gemini store p img sid).store sid =
        historyOf store sid ++ [mkUserTurn p img]
          ++ [⟨Role.assistant, content.parts⟩] := by
  by_cases hcond : (!jsTruthy p && img.isNone) = true
  · rw [handleTurn, if_pos hcond] at h
    exact absurd h (by simp)
  · have hcond' : (!jsTruthy p && img.isNone) = false := by
      cases hb : (!jsTruthy p && img.isNone) <;> simp_all
    cases hge : gemini (historyOf store sid ++ [mkUserTurn p img]) with
    | err =>
        rw [handleTurn_err now gemini store p img sid hcond' hge] at h
        exact absurd h (by simp)
    | ok cands =>
        have hresp : callGemini (gemini (historyOf store sid ++ [mkUserTurn p img])) =
            .ok ((extractContent cands).getD fallbackContent) := by
          rw [hge]; rfl
        refine ⟨(extractContent cands).getD fallbackContent, rfl, hcond', ?_⟩
        rw [handleTurn_ok_resp now gemini store p img sid _ hcond' hresp]
        simp [historyOf, updateStore_self]

/-- Claim C4: whenever the upstream call fails (the axios call throws:
network error, timeout, non-2xx), the relay fails with an UpstreamError
(HTTP 500), the user turn appended before the upstream call remains in
the session's history (no rollback), and no assistant turn is appended:
the stored history is exactly the old history plus the user turn. -/
theorem C4_upstream_failure (now : Int) (gemini : List Turn → AxiosResult)
    (store : Store) (p : Option String) (img : Option Image) (sid : String)
    (hv : (jsTruthy p || img.isSome) = true)
    (hfail : gemini (historyOf store sid ++ [mkUserTurn p img]) = .err) :
    (handleTurn now gemini store p img sid).result = .error .upstream ∧
    statusOf (handleTurn now gemini store p img sid).result = 500 ∧
    (handleTurn now gemini store p img sid).store sid =
      some ⟨historyOf store sid ++ [mkUserTurn p img], now⟩ := by
  rw [handleTurn_err now gemini store p img sid (valid_cond p img hv) hfail]
  exact ⟨rfl, rfl, updateStore_self _ _ _⟩

/-- Claim C4 witness: a text-only request against an upstream that
throws. -/
theorem C4_upstream_failure_witness :
    (handleTurn 5 (fun _ => AxiosResult.err) emptyStore (some "hi") none "s").result =
      .error .upstream ∧
    statusOf (handleTurn 5 (fun _ => AxiosResult.err) emptyStore
      (some "hi") none "s").result = 500 ∧
    (handleTurn 5 (fun _ => AxiosResult.err) emptyStore (some "hi") none "s").store "s" =
      some ⟨historyOf emptyStore "s" ++ [mkUserTurn (some "hi") none], 5⟩ :=
  C4_upstream_failure 5 (fun _ => AxiosResult.err) emptyStore
    (some "hi") none "s" (by decide) rfl

/-- Claim C8 (amended): on a successful relay call the assistant turn
appended to history carries exactly the parts of the upstream response's
first content block, and the text returned to the caller is the `text`
field of the FIRST fragment of that block — `some` its text when the
first fragment is a text fragment, and `none` (no `response` value) when
the first fragment is not a text fragment; the first text fragment
elsewhere in the block is not searched for. -/
theorem C8_first_fragment_text (now : Int) (gemini : List Turn → AxiosResult)
    (store : Store) (p : Option String) (img : Option Image) (sid : String)
    (content : Content) (p0 : Part)
    (hv : (jsTruthy p || img.isSome) = true)
    (hresp : callGemini (gemini (historyOf store sid ++ [mkUserTurn p img])) =
      .ok content)
    (hp0 : content.parts.head? = some p0) :
    (handleTurn now gemini store p img sid).result = .ok p0.textField ∧
    (handleTurn now gemini store p img sid).store sid =
      some ⟨historyOf store sid ++ [mkUserTurn p img]
        ++ [⟨Role.assistant, content.parts⟩], now⟩ := by
  rw [handleTurn_ok_resp now gemini store p img sid content
    (valid_cond p img hv) hresp]
  exact ⟨by simp [hp0], updateStore_self _ _ _⟩

/-- Claim C8 witness: a response whose first content block starts with a
text fragment; its text is returned. -/
theorem C8_first_fragment_text_witness :
    (handleTurn 0
      (fun _ => AxiosResult.ok (some [⟨some ⟨[Part.text "reply"]⟩⟩]))
      emptyStore (some "hi") none "s").result = .ok (some "reply") ∧
    (handleTurn 0
      (fun _ => AxiosResult.ok (some [⟨some ⟨[Part.text "reply"]⟩⟩]))
      emptyStore (some "hi") none "s").store "s" =
      some ⟨historyOf emptyStore "s" ++ [mkUserTurn (some "hi") none]
        ++ [⟨Role.assistant, [Part.text "reply"]⟩], 0⟩ :=
  C8_first_fragment_text 0
    (fun _ => AxiosResult.ok (some [⟨some ⟨[Part.text "reply"]⟩⟩]))
    emptyStore (some "hi") none "s" ⟨[Part.text "reply"]⟩ (Part.text "reply")
    (by decide) rfl rfl

/-- Claim C8 counterexample: when the first content block's first
fragment is inline data and its second fragment is the text "hello", the
spec's reading (first TEXT fragment) demands "hello", but the handler
returns no text at all (`parts[0].text` is undefined). -/
theorem C8_counterexample :
    (handleTurn 0
      (fun _ => AxiosResult.ok (some [⟨some
        ⟨[Part.inlineData "image/png" "QUJD", Part.text "hello"]⟩⟩]))
      emptyStore (some "hi") none "s").result = .ok none ∧
    specFirstTextFragment
      [Part.inlineData "image/png" "QUJD", Part.text "hello"] = some "hello" ∧
    (Except.ok none : Except RelayError (Option String)) ≠ .ok (some "hello") := by
  exact ⟨rfl, by decide, by simp⟩

/-- Claim C7 witness: an upstream body with no `candidates` field at
all, on a plain text request. -/
theorem C7_no_candidates_fallback_witness :
    callGemini (.ok none) = .ok fallbackContent ∧
    (handleTurn 0 (fun _ => .ok none) emptyStore (some "hi") none "s").result =
      .ok (some "No response from AI.") :=
  C7_no_candidates_fallback none rfl 0 emptyStore (some "hi") none "s" (by decide)

theorem shape_length {inputs : List (Option String × Option Image)}
    {h : List Turn} (hs : ConversationShape inputs h) :
    h.length = 2 * inputs.length := by
  induction hs with
  | nil => rfl
  | cons p img aParts rest h hrec ih => simp [ih]; omega

/-- Running a sequence of relay calls in which every call succeeds
extends the stored history by the conversation-shaped block of turns of
those calls. -/
theorem runCalls_ok_ext (now : Int) (gemini : List Turn → AxiosResult)
    (sid : String) :
    ∀ (inputs : List (Option String × Option Image)) (store : Store),
      ((runCalls now gemini sid store inputs).2.all resultOk) = true →
      ∃ ext, historyOf (runCalls now gemini sid store inputs).1 sid =
          historyOf store sid ++ ext ∧ ConversationShape inputs ext := by
  intro inputs
  induction inputs with
  | nil =>
      intro store _
      exact ⟨[], by simp [runCalls], ConversationShape.nil⟩
  | cons hd rest ih =>
      intro store hall
      obtain ⟨p, img⟩ := hd
      simp only [runCalls, List.all_cons, Bool.and_eq_true] at hall
      obtain ⟨h1, h2⟩ := hall
      cases hr : (handleTurn now gemini store p img sid).result with
      | error e => rw [hr] at h1; simp [resultOk] at h1
      | ok t =>
          obtain ⟨content, _, _, hhist⟩ :=
            handleTurn_result_ok now gemini store p img sid t hr
          obtain ⟨ext, hexteq, hshape⟩ :=
            ih (handleTurn now gemini store p img sid).store h2
          refine ⟨mkUserTurn p img :: ⟨Role.assistant, content.parts⟩ :: ext,
            ?_, ConversationShape.cons p img content.parts rest ext hshape⟩
          simp only [runCalls]
          rw [hexteq, hhist]
          simp

/-- Claim C3: starting from an absent session, after any sequence of N
relay calls for the same sessionId in which every call succeeds, the
stored history has length exactly 2N and consists, in call order, of
the user turn of each call followed by one assistant turn. -/
theorem C3_two_turns_per_call (now : Int) (gemini : List Turn → AxiosResult)
    (sid : String) (inputs : List (Option String × Option Image))
    (store : Store) (h0 : store sid = none)
    (hall : ((runCalls now gemini sid store inputs).2.all resultOk) = true) :
    ConversationShape inputs
      (historyOf (runCalls now gemini sid store inputs).1 sid) ∧
    (historyOf (runCalls now gemini sid store inputs).1 sid).length =
      2 * inputs.length := by
  obtain ⟨ext, heq, hshape⟩ := runCalls_ok_ext now gemini sid inputs store hall
  have hnil : historyOf store sid = [] := by simp [historyOf, h0]
  rw [heq, hnil, List.nil_append]
  exact ⟨hshape, shape_length hshape⟩

/-- Claim C3 witness: two successful text calls leave a four-turn
history of the expected shape. -/
theorem C3_two_turns_per_call_witness :
    ConversationShape [(some "a", none), (some "b", none)]
      (historyOf (runCalls 0
        (fun _ => AxiosResult.ok (some [⟨some ⟨[Part.text "r"]⟩⟩])) "s"
        emptyStore [(some "a", none), (some "b", none)]).1 "s") ∧
    (historyOf (runCalls 0
        (fun _ => AxiosResult.ok (some [⟨some ⟨[Part.text "r"]⟩⟩])) "s"
        emptyStore [(some "a", none), (some "b", none)]).1 "s").length =
      2 * [((some "a" : Option String), (none : Option Image)),
           (some "b", none)].length :=
  C3_two_turns_per_call 0
    (fun _ => AxiosResult.ok (some [⟨some ⟨[Part.text "r"]⟩⟩])) "s"
    [(some "a", none), (some "b", none)] emptyStore rfl (by decide)

/-- Claim C6: starting from an absent session, after a first successful
call, a second valid call for the same sessionId hands the upstream API
exactly the three prior turns user1, assistant1, user2 and nothing
else; and the payload is a snapshot: when the second call succeeds the
stored history has moved on to four turns while the payload that was
sent remains those three. -/
theorem C6_full_history_snapshot (now1 now2 : Int)
    (g1 g2 : List Turn → AxiosResult) (store : Store)
    (p1 : Option String) (i1 : Option Image)
    (p2 : Option String) (i2 : Option Image)
    (sid : String) (t1 : Option String)
    (h0 : store sid = none)
    (h1ok : (handleTurn now1 g1 store p1 i1 sid).result = .ok t1)
    (hv2 : (jsTruthy p2 || i2.isSome) = true) :
    ∃ aParts : List Part,
      (handleTurn now2 g2 (handleTurn now1 g1 store p1 i1 sid).store
          p2 i2 sid).sent =
        some [mkUserTurn p1 i1, ⟨Role.assistant, aParts⟩, mkUserTurn p2 i2] ∧
      ∀ t2, (handleTurn now2 g2 (handleTurn now1 g1 store p1 i1 sid).store
          p2 i2 sid).result = .ok t2 →
        ∃ a2 : List Part,
          historyOf (handleTurn now2 g2
              (handleTurn now1 g1 store p1 i1 sid).store p2 i2 sid).store sid =
            [mkUserTurn p1 i1, ⟨Role.assistant, aParts⟩, mkUserTurn p2 i2,
             ⟨Role.assistant, a2⟩] := by
  obtain ⟨c1, _, _, hh1⟩ := handleTurn_result_ok now1 g1 store p1 i1 sid t1 h1ok
  have hnil : historyOf store sid = [] := by simp [historyOf, h0]
  rw [hnil] at hh1
  have hh1' : historyOf (handleTurn now1 g1 store p1 i1 sid).store sid =
      [mkUserTurn p1 i1, ⟨Role.assistant, c1.parts⟩] := by
    rw [hh1]; rfl
  refine ⟨c1.parts, ?_, ?_⟩
  · rw [handleTurn_sent now2 g2 _ p2 i2 sid (valid_cond p2 i2 hv2), hh1']
    rfl
  · intro t2 h2ok
    obtain ⟨c2, _, _, hh2⟩ := handleTurn_result_ok now2 g2 _ p2 i2 sid t2 h2ok
    rw [hh1'] at hh2
    exact ⟨c2.parts, by rw [hh2]; rfl⟩

/-- Claim C6 witness: two concrete successful calls; the second payload
is the three-turn snapshot. -/
theorem C6_full_history_snapshot_witness :
    ∃ aParts : List Part,
      (handleTurn 1 (fun _ => AxiosResult.ok (some [⟨some ⟨[Part.text "r2"]⟩⟩]))
        (handleTurn 0 (fun _ => AxiosResult.ok (some [⟨some ⟨[Part.text "r1"]⟩⟩]))
          emptyStore (some "a") none "s").store (some "b") none "s").sent =
        some [mkUserTurn (some "a") none, ⟨Role.assistant, aParts⟩,
          mkUserTurn (some "b") none] ∧
      ∀ t2, (handleTurn 1
          (fun _ => AxiosResult.ok (some [⟨some ⟨[Part.text "r2"]⟩⟩]))
          (handleTurn 0 (fun _ => AxiosResult.ok (some [⟨some ⟨[Part.text "r1"]⟩⟩]))
            emptyStore (some "a") none "s").store (some "b") none "s").result =
          .ok t2 →
        ∃ a2 : List Part,
          historyOf (handleTurn 1
              (fun _ => AxiosResult.ok (some [⟨some ⟨[Part.text "r2"]⟩⟩]))
              (handleTurn 0 (fun _ => AxiosResult.ok (some [⟨some ⟨[Part.text "r1"]⟩⟩]))
                emptyStore (some "a") none "s").store (some "b") none "s").store "s" =
            [mkUserTurn (some "a") none, ⟨Role.assistant, aParts⟩,
             mkUserTurn (some "b") none, ⟨Role.assistant, a2⟩] :=
  C6_full_history_snapshot 0 1
    (fun _ => AxiosResult.ok (some [⟨some ⟨[Part.text "r1"]⟩⟩]))
    (fun _ => AxiosResult.ok (some [⟨some ⟨[Part.text "r2"]⟩⟩]))
    emptyStore (some "a") none (some "b") none "s" (some "r1")
    rfl rfl (by decide)

/-- Claim C10: when the first upstream response for a fresh session is
well-formed but has no candidates, the call succeeds with the fallback
text, the fallback is appended to history as an assistant turn (the
history grows by exactly two turns), and a later valid call for that
session replays the fallback turn inside its upstream payload. -/
theorem C10_fallback_recorded (now1 now2 : Int)
    (g1 g2 : List Turn → AxiosResult) (store : Store)
    (p1 : Option String) (i1 : Option Image)
    (p2 : Option String) (i2 : Option Image)
    (sid : String) (cands : Option (List Candidate))
    (h0 : store sid = none)
    (hv1 : (jsTruthy p1 || i1.isSome) = true)
    (hg1 : g1 [mkUserTurn p1 i1] = .ok cands)
    (hnc : extractContent cands = none)
    (hv2 : (jsTruthy p2 || i2.isSome) = true) :
    (handleTurn now1 g1 store p1 i1 sid).result =
      .ok (some "No response from AI.") ∧
    historyOf (handleTurn now1 g1 store p1 i1 sid).store sid =
      [mkUserTurn p1 i1,
       ⟨Role.assistant, [Part.text "No response from AI."]⟩] ∧
    (handleTurn now2 g2 (handleTurn now1 g1 store p1 i1 sid).store
        p2 i2 sid).sent =
      some [mkUserTurn p1 i1,
        ⟨Role.assistant, [Part.text "No response from AI."]⟩,
        mkUserTurn p2 i2] := by
  have hnil : historyOf store sid = [] := by simp [historyOf, h0]
  have hresp : callGemini (g1 (historyOf store sid ++ [mkUserTurn p1 i1])) =
      .ok fallbackContent := by
    rw [hnil, List.nil_append, hg1]
    simp [callGemini, hnc]
  have h1 := handleTurn_ok_resp now1 g1 store p1 i1 sid fallbackContent
    (valid_cond p1 i1 hv1) hresp
  have hh : historyOf (handleTurn now1 g1 store p1 i1 sid).store sid =
      [mkUserTurn p1 i1,
       ⟨Role.assistant, [Part.text "No response from AI."]⟩] := by
    rw [h1]
    simp [historyOf, updateStore, h0, fallbackContent]
  refine ⟨by rw [h1]; rfl, hh, ?_⟩
  rw [handleTurn_sent now2 g2 _ p2 i2 sid (valid_cond p2 i2 hv2), hh]
  rfl

/-- Claim C10 witness: an empty candidates array on the first call; the
fallback turn shows up in the second call's payload. -/
theorem C10_fallback_recorded_witness :
    (handleTurn 0 (fun _ => AxiosResult.ok (some [])) emptyStore
      (some "a") none "s").result = .ok (some "No response from AI.") ∧
    historyOf (handleTurn 0 (fun _ => AxiosResult.ok (some [])) emptyStore
      (some "a") none "s").store "s" =
      [mkUserTurn (some "a") none,
       ⟨Role.assistant, [Part.text "No response from AI."]⟩] ∧
    (handleTurn 1 (fun _ => AxiosResult.err)
      (handleTurn 0 (fun _ => AxiosResult.ok (some [])) emptyStore
        (some "a") none "s").store (some "b") none "s").sent =
      some [mkUserTurn (some "a") none,
        ⟨Role.assistant, [Part.text "No response from AI."]⟩,
        mkUserTurn (some "b") none] :=
  C10_fallback_recorded 0 1 (fun _ => AxiosResult.ok (some []))
    (fun _ => AxiosResult.err) emptyStore (some "a") none (some "b") none
    "s" (some []) rfl (by decide) rfl rfl (by decide)

end Server
